import Mathlib

/-!
Shallow embedding of `src/structures/GuildAuditLogs.js` (discord.js v11 fork):
the audit-log batch container (`GuildAuditLogs`) and per-record entry
resolver (`GuildAuditLogsEntry`).  JavaScript dynamic values appearing in
raw audit payloads are embedded as `JsVal`; JavaScript objects built by
`reduce` projections as insertion-ordered association lists (`JsObj`);
thrown `TypeError`s as `Except JsErr`.
-/

/-- A JavaScript primitive value as it occurs in raw audit-log payloads. -/
inductive JsVal where
  | undefV : JsVal
  | nullV : JsVal
  | bool : Bool → JsVal
  | num : Int → JsVal
  | str : String → JsVal
deriving DecidableEq, Repr

/-- JavaScript truthiness on `JsVal`. -/
def jsTruthy : JsVal → Bool
  | .undefV => false
  | .nullV => false
  | .bool b => b
  | .num n => n != 0
  | .str s => s != ""

/-- JavaScript `a || b` on embedded values. -/
def jsOr (a b : JsVal) : JsVal := if jsTruthy a then a else b

/-- Decimal-digit parse of a character list (`none` on a non-digit or on
the empty list). -/
def parseDigits (cs : List Char) : Option Nat :=
  if cs = [] then none
  else cs.foldl
    (fun acc c => acc.bind
      (fun n => if c.toNat < 48 ∨ 57 < c.toNat then none
        else some (n * 10 + (c.toNat - 48))))
    (some 0)

/-- JavaScript `Number(v)`: `none` stands for `NaN`.  Strings convert as
optionally-signed decimal numerals (the empty string is `0`). -/
def jsToNumber : JsVal → Option Int
  | .undefV => none
  | .nullV => some 0
  | .bool b => some (if b then 1 else 0)
  | .num n => some n
  | .str s =>
    if s = "" then some 0
    else match s.data with
      | '-' :: cs => (parseDigits cs).map (fun n => -(n : Int))
      | cs => (parseDigits cs).map (fun n => (n : Int))

/-- An optional string (e.g. `target_id`) as a `JsVal` (`none` ↦ `undefined`). -/
def jsOfOptStr : Option String → JsVal
  | some s => .str s
  | none => .undefV

/-- JavaScript truthiness of an optional string (absent and `""` are falsy). -/
def jsTruthyStr : Option String → Bool
  | some s => s != ""
  | none => false

/-- A JavaScript object built by property assignment, as an
insertion-ordered association list. -/
def JsObj : Type := List (String × JsVal)
deriving DecidableEq, Repr

/-- JavaScript `Map.set` / property assignment: overwrite the value in
place when the key exists (keeping its original position), else append. -/
def setKV {α : Type} : List (String × α) → String → α → List (String × α)
  | [], k, v => [(k, v)]
  | p :: m, k, v => if p.1 = k then (k, v) :: m else p :: setKV m k v

/-- JavaScript `Map.get` / property read on an association list. -/
def jlookup {α : Type} : List (String × α) → String → Option α
  | [], _ => none
  | p :: m, k => if p.1 = k then some p.2 else jlookup m k

namespace GuildAuditLogs

/-- The `Actions` key mirror of `GuildAuditLogs.js` in source order
(`ALL` is `null`, embedded as `none`). -/
def Actions : List (String × Option Int) :=
  [("ALL", none), ("GUILD_UPDATE", some 1),
   ("CHANNEL_CREATE", some 10), ("CHANNEL_UPDATE", some 11),
   ("CHANNEL_DELETE", some 12), ("CHANNEL_OVERWRITE_CREATE", some 13),
   ("CHANNEL_OVERWRITE_UPDATE", some 14), ("CHANNEL_OVERWRITE_DELETE", some 15),
   ("MEMBER_KICK", some 20), ("MEMBER_PRUNE", some 21),
   ("MEMBER_BAN_ADD", some 22), ("MEMBER_BAN_REMOVE", some 23),
   ("MEMBER_UPDATE", some 24), ("MEMBER_ROLE_UPDATE", some 25),
   ("MEMBER_MOVE", some 26), ("MEMBER_DISCONNECT", some 27),
   ("BOT_ADD", some 28), ("ROLE_CREATE", some 30),
   ("ROLE_UPDATE", some 31), ("ROLE_DELETE", some 32),
   ("INVITE_CREATE", some 40), ("INVITE_UPDATE", some 41),
   ("INVITE_DELETE", some 42), ("WEBHOOK_CREATE", some 50),
   ("WEBHOOK_UPDATE", some 51), ("WEBHOOK_DELETE", some 52),
   ("EMOJI_CREATE", some 60), ("EMOJI_UPDATE", some 61),
   ("EMOJI_DELETE", some 62), ("MESSAGE_DELETE", some 72),
   ("MESSAGE_BULK_DELETE", some 73), ("MESSAGE_PIN", some 74),
   ("MESSAGE_UNPIN", some 75), ("INTEGRATION_CREATE", some 80),
   ("INTEGRATION_UPDATE", some 81), ("INTEGRATION_DELETE", some 82)]

/-- JavaScript `x < n` where `x` is the raw `action_type` (`int | null`):
`null` coerces to `0`. -/
def jsLt (x : Option Int) (n : Int) : Bool := x.getD 0 < n

/-- Source `GuildAuditLogs.targetType`: range bucketing of an action code into a
target family; `none` embeds the JavaScript `null` result for unmapped
codes (the function never returns the `UNKNOWN` key of the `Targets`
mirror). -/
def targetType (t : Option Int) : Option String :=
  if jsLt t 10 then some "GUILD"
  else if jsLt t 20 then some "CHANNEL"
  else if jsLt t 30 then some "USER"
  else if jsLt t 40 then some "ROLE"
  else if jsLt t 50 then some "INVITE"
  else if jsLt t 60 then some "WEBHOOK"
  else if jsLt t 70 then some "EMOJI"
  else if jsLt t 80 then some "MESSAGE"
  else if jsLt t 90 then some "INTEGRATION"
  else none

/-- The CREATE membership array of `GuildAuditLogs.actionType`, in source
order. -/
def createCodes : List (Option Int) :=
  [some 10, some 13, some 23, some 28, some 30, some 40, some 50, some 60,
   some 74, some 80]

/-- The DELETE membership array of `GuildAuditLogs.actionType`, in source
order. -/
def deleteCodes : List (Option Int) :=
  [some 12, some 15, some 20, some 21, some 22, some 27, some 32, some 42,
   some 52, some 62, some 72, some 73, some 75, some 82]

/-- The UPDATE membership array of `GuildAuditLogs.actionType`, in source
order. -/
def updateCodes : List (Option Int) :=
  [some 1, some 11, some 14, some 24, some 25, some 26, some 31, some 41,
   some 51, some 61, some 81]

/-- Source `GuildAuditLogs.actionType`: verb classification by membership in the
three fixed arrays, `ALL` otherwise. -/
def actionType (a : Option Int) : String :=
  if createCodes.contains a then "CREATE"
  else if deleteCodes.contains a then "DELETE"
  else if updateCodes.contains a then "UPDATE"
  else "ALL"

/-- Reverse lookup `Object.keys(Actions).find(k => Actions[k] === data.action_type)`:
reverse lookup of an action code to its name. -/
def actionName (a : Option Int) : Option String :=
  (Actions.find? (fun p => p.2 = a)).map (fun p => p.1)

end GuildAuditLogs

/-- A cached user entity (`client.users` values). -/
structure UserEnt where
  id : String
  username : JsVal
deriving DecidableEq, Repr

/-- A cached channel entity (`guild.channels` / `client.channels` values). -/
structure ChannelEnt where
  id : String
  name : String
deriving DecidableEq, Repr

/-- A cached guild entity (`client.guilds` values). -/
structure GuildEnt where
  id : String
deriving DecidableEq, Repr

/-- A cached member entity (`guild.members` values). -/
structure MemberEnt where
  id : String
deriving DecidableEq, Repr

/-- A cached role entity (`guild.roles` values). -/
structure RoleEnt where
  id : String
  name : String
deriving DecidableEq, Repr

/-- A cached emoji entity (`guild.emojis` values). -/
structure EmojiEnt where
  id : String
deriving DecidableEq, Repr

/-- A webhook entity of the batch's own webhook cache, constructed from a
raw `webhooks` payload element. -/
structure WebhookEnt where
  id : String
deriving DecidableEq, Repr

/-- An integration entity of the batch's own integration cache. -/
structure IntegrationEnt where
  id : String
deriving DecidableEq, Repr

/-- The guild context an entry resolver consults: the guild id plus the
read-only long-lived entity caches reachable from `guild` and
`guild.client` (channels, members, roles, emojis, client channels, client
guilds).  The client-level user cache is threaded separately because the
batch constructor upserts into it. -/
structure GuildCtx where
  id : String
  channels : List (String × ChannelEnt)
  members : List (String × MemberEnt)
  roles : List (String × RoleEnt)
  emojis : List (String × EmojiEnt)
  clientChannels : List (String × ChannelEnt)
  clientGuilds : List (String × GuildEnt)
deriving DecidableEq, Repr

/-- The client-level user cache. -/
def UserCache : Type := List (String × UserEnt)
deriving DecidableEq, Repr

/-- The per-batch auxiliary caches owned by `GuildAuditLogs`. -/
structure AuxCaches where
  webhooks : List (String × WebhookEnt)
  integrations : List (String × IntegrationEnt)
deriving DecidableEq, Repr

/-- A raw `{key, old_value, new_value}` element of a raw entry's `changes`
array (absent value fields are `undefined`). -/
structure RawChange where
  key : String
  old_value : JsVal
  new_value : JsVal
deriving DecidableEq, Repr

/-- The fields of a raw entry's `options` object read by the resolver
(absent properties are `undefined`). -/
structure RawOptions where
  channel_id : JsVal := .undefV
  count : JsVal := .undefV
  members_removed : JsVal := .undefV
  delete_member_days : JsVal := .undefV
  message_id : JsVal := .undefV
  type : JsVal := .undefV
  id : JsVal := .undefV
  role_name : JsVal := .undefV
deriving DecidableEq, Repr

/-- One raw element of `audit_log_entries`: `action_type` is `int | null`
(`none` = `null`), `target_id`, `changes`, `options`, `user_id` and
`reason` may be absent. -/
structure RawEntry where
  id : String
  action_type : Option Int
  user_id : Option String := none
  reason : Option String := none
  changes : Option (List RawChange) := none
  target_id : Option String := none
  options : Option RawOptions := none
deriving DecidableEq, Repr

/-- A raw batch payload as passed to the `GuildAuditLogs` constructor. -/
structure RawBatch where
  users : Option (List UserEnt) := none
  webhooks : Option (List WebhookEnt) := none
  integrations : Option (List IntegrationEnt) := none
  audit_log_entries : List RawEntry
deriving DecidableEq, Repr

/-- A normalized `{key, old, new}` change record of an `Entry`. -/
structure Change where
  key : String
  old : JsVal
  new : JsVal
deriving DecidableEq, Repr

/-- A thrown JavaScript error (the resolver can only raise `TypeError`s,
from dereferencing `null`/`undefined`). -/
inductive JsErr where
  | typeError : String → JsErr
deriving DecidableEq, Repr

/-- The `extra.channel` value: either a cached channel entity or the
`{id: options.channel_id}` fallback projection. -/
inductive ChanOrId where
  | ent : ChannelEnt → ChanOrId
  | idObj : JsVal → ChanOrId
deriving DecidableEq, Repr

/-- The `extra` field of an entry, one variant per shape the
`switch (data.action_type)` block can produce. -/
inductive ExtraVal where
  | nul : ExtraVal
  | prune : Option Int → Option Int → ExtraVal
  | channelCount : ChanOrId → Option Int → ExtraVal
  | pin : ChanOrId → JsVal → ExtraVal
  | disconnect : Option Int → ExtraVal
  | memberE : MemberEnt → ExtraVal
  | memberIdObj : JsVal → ExtraVal
  | roleE : RoleEnt → ExtraVal
  | roleIdObj : JsVal → JsVal → ExtraVal
deriving DecidableEq, Repr

/-- The resolved `target` of an entry: `nul` is the initial `null`,
`undefV` a cache miss assigned directly, `idObj` the `{id: target_id}`
projection, `webhook`/`invite`/`integration` freshly synthesized entities
carrying their constructor data object (for `invite`, also the
`{id: changes.channel_id}` channel projection the code attaches; the
`guild` reference placed in the invite data object is the ambient guild
context and is not repeated in the value). -/
inductive Target where
  | nul : Target
  | undefV : Target
  | user : UserEnt → Target
  | guild : GuildEnt → Target
  | channel : ChannelEnt → Target
  | role : RoleEnt → Target
  | emoji : EmojiEnt → Target
  | idObj : Option String → Target
  | webhookCached : WebhookEnt → Target
  | webhook : JsObj → Target
  | invite : JsObj → JsVal → Target
  | integrationCached : IntegrationEnt → Target
  | integration : JsObj → Target
deriving DecidableEq, Repr

/-- A resolved audit-log entry (`GuildAuditLogsEntry`). -/
structure Entry where
  targetType : Option String
  actionType : String
  action : Option String
  reason : Option String
  executor : Option UserEnt
  changes : Option (List Change)
  id : String
  extra : ExtraVal
  target : Target
deriving DecidableEq, Repr

/-- Read a channel cache with a `JsVal` key (a non-string key never
matches a cached id). -/
def chanLookup (cache : List (String × ChannelEnt)) (k : JsVal) : ChanOrId :=
  match k with
  | .str s =>
    match jlookup cache s with
    | some c => .ent c
    | none => .idObj k
  | _ => .idObj k

/-- The `data.options` dereference: raises a `TypeError` when `options` is
absent. -/
def reqOptions (d : RawEntry) : Except JsErr RawOptions :=
  match d.options with
  | some o => .ok o
  | none => .error (.typeError "Cannot read properties of undefined")

/-- The `switch (data.action_type)` block computing `this.extra`. -/
def computeExtra (guild : GuildCtx) (d : RawEntry) : Except JsErr ExtraVal :=
  if d.action_type = some 21 then
    (reqOptions d).map (fun o =>
      .prune (jsToNumber o.members_removed) (jsToNumber o.delete_member_days))
  else if d.action_type = some 26 ∨ d.action_type = some 72 ∨
      d.action_type = some 73 then
    (reqOptions d).map (fun o =>
      .channelCount (chanLookup guild.channels o.channel_id) (jsToNumber o.count))
  else if d.action_type = some 74 ∨ d.action_type = some 75 then
    (reqOptions d).map (fun o =>
      .pin (chanLookup guild.clientChannels o.channel_id) o.message_id)
  else if d.action_type = some 27 then
    (reqOptions d).map (fun o => .disconnect (jsToNumber o.count))
  else if d.action_type = some 13 ∨ d.action_type = some 14 ∨
      d.action_type = some 15 then
    (reqOptions d).map (fun o =>
      if o.type = .str "member" then
        match o.id with
        | .str s =>
          match jlookup guild.members s with
          | some m => .memberE m
          | none => .memberIdObj o.id
        | _ => .memberIdObj o.id
      else if o.type = .str "role" then
        match o.id with
        | .str s =>
          match jlookup guild.roles s with
          | some r => .roleE r
          | none => .roleIdObj o.id o.role_name
        | _ => .roleIdObj o.id o.role_name
      else .nul)
  else pure .nul

/-- The `reduce` projection flattening a change list onto a base object:
`o[c.key] = c.new || c.old` for each change in order. -/
def flattenChanges (cs : List Change) (base : JsObj) : JsObj :=
  cs.foldl (fun o c => setKV o c.key (jsOr c.new c.old)) base

/-- The target-resolution `if`/`else if` chain of the entry constructor.
The first branch compares the (possibly `null`) target type against the
`Targets.UNKNOWN` key; when it matches, the code dereferences
`this.changes` (a `TypeError` when `changes` is `null`) and then assigns
a property on the still-`null` `this.target` (always a `TypeError`). -/
def computeTarget (users : UserCache) (logs : AuxCaches) (guild : GuildCtx)
    (d : RawEntry) (tt : Option String) (chs : Option (List Change)) :
    Except JsErr Target :=
  if tt = some "UNKNOWN" then
    match chs with
    | none => .error (.typeError "Cannot read properties of null reading reduce")
    | some _ => .error (.typeError "Cannot set properties of null setting id")
  else if tt = some "USER" ∧ jsTruthyStr d.target_id then
    .ok (match d.target_id.bind (jlookup users) with
      | some u => .user u
      | none => .undefV)
  else if tt = some "GUILD" then
    .ok (match d.target_id.bind (jlookup guild.clientGuilds) with
      | some g => .guild g
      | none => .undefV)
  else if tt = some "WEBHOOK" then
    match d.target_id.bind (jlookup logs.webhooks) with
    | some w => .ok (.webhookCached w)
    | none =>
      match chs with
      | none => .error (.typeError "Cannot read properties of null reading reduce")
      | some cs =>
        .ok (.webhook (flattenChanges cs
          [("id", jsOfOptStr d.target_id), ("guild_id", .str guild.id)]))
  else if tt = some "INVITE" then
    match chs with
    | none => .error (.typeError "Cannot read properties of null reading reduce")
    | some cs =>
      let obj := flattenChanges cs [("id", jsOfOptStr d.target_id)]
      .ok (.invite obj ((jlookup obj "channel_id").getD .undefV))
  else if tt = some "MESSAGE" then
    if d.action_type = some 73 then
      .ok (match d.target_id.bind (jlookup guild.channels) with
        | some c => .channel c
        | none => .idObj d.target_id)
    else
      .ok (match d.target_id.bind (jlookup users) with
        | some u => .user u
        | none => .undefV)
  else if tt = some "INTEGRATION" then
    match d.target_id.bind (jlookup logs.integrations) with
    | some i => .ok (.integrationCached i)
    | none =>
      match chs with
      | none => .error (.typeError "Cannot read properties of null reading reduce")
      | some cs =>
        .ok (.integration (flattenChanges cs [("id", jsOfOptStr d.target_id)]))
  else if jsTruthyStr d.target_id then
    match tt with
    | none => .error (.typeError "Cannot read properties of null reading toLowerCase")
    | some fam =>
      if fam = "CHANNEL" then
        .ok (match d.target_id.bind (jlookup guild.channels) with
          | some c => .channel c
          | none => .idObj d.target_id)
      else if fam = "ROLE" then
        .ok (match d.target_id.bind (jlookup guild.roles) with
          | some r => .role r
          | none => .idObj d.target_id)
      else if fam = "EMOJI" then
        .ok (match d.target_id.bind (jlookup guild.emojis) with
          | some e => .emoji e
          | none => .idObj d.target_id)
      else
        .error (.typeError "Cannot read properties of undefined reading get")
  else .ok .nul

/-- The `{ key: c.key, old: c.old_value, new: c.new_value }` projection
applied to each raw change. -/
def mkChange (c : RawChange) : Change :=
  Change.mk c.key c.old_value c.new_value

/-- The `data.reason || null` normalization. -/
def reasonOf : Option String → Option String
  | some s => if s = "" then none else some s
  | none => none

/-- The `GuildAuditLogsEntry` constructor for one raw record, against the
client user cache, the batch's auxiliary caches and the guild context. -/
def mkEntry (users : UserCache) (logs : AuxCaches) (guild : GuildCtx)
    (d : RawEntry) : Except JsErr Entry :=
  let tt := GuildAuditLogs.targetType d.action_type
  let chs := d.changes.map (fun cs => cs.map mkChange)
  match computeExtra guild d with
  | .error e => .error e
  | .ok extra =>
    match computeTarget users logs guild d tt chs with
    | .error e => .error e
    | .ok target =>
      .ok { targetType := tt
            actionType := GuildAuditLogs.actionType d.action_type
            action := GuildAuditLogs.actionName d.action_type
            reason := reasonOf d.reason
            executor := d.user_id.bind (jlookup users)
            changes := chs
            id := d.id
            extra := extra
            target := target }

/-- Modelled from the spec: the client `dataManager.newUser` upsert used
by step 1 of the batch constructor (`util/Collection` and the data
manager are not part of the source under review).  Per §4.1 it is an
idempotent upsert into the shared user cache: a repeated id never creates
a duplicate entity, last write wins on conflicting fields. -/
def newUser (m : UserCache) (u : UserEnt) : UserCache :=
  setKV m u.id u

/-- The user-cache upsert loop of the batch constructor
(`if (data.users) for (const user of data.users) ... newUser(user)`). -/
def upsertUsers (m : UserCache) (b : RawBatch) : UserCache :=
  (b.users.getD []).foldl newUser m

/-- The batch's auxiliary webhook/integration caches, built from the
optional `webhooks` / `integrations` arrays (absent array ⇒ empty). -/
def auxOf (b : RawBatch) : AuxCaches :=
  { webhooks := (b.webhooks.getD []).foldl (fun m h => setKV m h.id h) []
    integrations :=
      (b.integrations.getD []).foldl (fun m i => setKV m i.id i) [] }

/-- The resolved batch: the two auxiliary caches plus the owned entry
collection, an insertion-ordered map keyed by entry id. -/
structure BatchResult where
  webhooks : List (String × WebhookEnt)
  integrations : List (String × IntegrationEnt)
  entries : List (String × Entry)
deriving DecidableEq, Repr

/-- The `entries.set(entry.id, entry)` loop over the constructed entries. -/
def entriesMapOf (ids : List String) (es : List Entry) :
    List (String × Entry) :=
  (ids.zip es).foldl (fun m p => setKV m p.1 p.2) []

/-- The `GuildAuditLogs` constructor: upsert `data.users` into the client
user cache, build the auxiliary caches, then construct one entry per
`audit_log_entries` element in source order.  Returns the updated user
cache together with the batch result (or the first raised error). -/
def resolveBatch (users0 : UserCache) (guild : GuildCtx) (b : RawBatch) :
    UserCache × Except JsErr BatchResult :=
  let users1 := upsertUsers users0 b
  let aux := auxOf b
  (users1,
    match b.audit_log_entries.mapM (fun item => mkEntry users1 aux guild item) with
    | .error e => .error e
    | .ok es =>
      .ok { webhooks := aux.webhooks
            integrations := aux.integrations
            entries := entriesMapOf (b.audit_log_entries.map (fun d => d.id)) es })

/-- Modelled from the spec: `Snowflake.deconstruct(id).timestamp`
(`util/Snowflake` is not part of the source under review).  Per the
Glossary a sortable id embeds its creation timestamp in the bits above
the low 22, relative to a fixed epoch, decodable without external
state. -/
def snowflakeTimestamp (id : String) : Nat :=
  (id.toNat?.getD 0) / 2 ^ 22 + 1420070400000

/-- A JavaScript `Date`, identified by its millisecond epoch value. -/
structure DateVal where
  ms : Nat
deriving DecidableEq, Repr

/-- The `createdTimestamp` getter of `GuildAuditLogsEntry`. -/
def Entry.createdTimestamp (e : Entry) : Nat :=
  snowflakeTimestamp e.id

/-- The `createdAt` getter of `GuildAuditLogsEntry`. -/
def Entry.createdAt (e : Entry) : DateVal :=
  DateVal.mk e.createdTimestamp

/-- The 36 numeric codes of the fixed action table (§6); `ALL` is the
`null` sentinel and carries no number. -/
def knownActionCodes : List Int :=
  [1, 10, 11, 12, 13, 14, 15, 20, 21, 22, 23, 24, 25, 26, 27, 28,
   30, 31, 32, 40, 41, 42, 50, 51, 52, 60, 61, 62, 72, 73, 74, 75,
   80, 81, 82]

/-- Following the spec (§4.2 `targetFamilyFromActionCode`): bucket a
known numeric action code by half-open ranges in ascending order,
`<10`→GUILD, `<20`→CHANNEL, `<30`→USER, `<40`→ROLE, `<50`→INVITE,
`<60`→WEBHOOK, `<70`→EMOJI, `<80`→MESSAGE, `<90`→INTEGRATION, otherwise
no family. -/
def specTargetFamily (c : Int) : Option String :=
  if c < 10 then some "GUILD"
  else if c < 20 then some "CHANNEL"
  else if c < 30 then some "USER"
  else if c < 40 then some "ROLE"
  else if c < 50 then some "INVITE"
  else if c < 60 then some "WEBHOOK"
  else if c < 70 then some "EMOJI"
  else if c < 80 then some "MESSAGE"
  else if c < 90 then some "INTEGRATION"
  else none

/-- The key sequence a JavaScript `Map` iterates after repeated `set`s:
each key at its first-occurrence position. -/
def firstDedup (l : List String) : List String :=
  l.foldl (fun ks k => if ks.any (fun x => x = k) then ks else ks ++ [k]) []

/-- A sample guild context used by concrete evaluations: one cached
channel `C1`, the guild itself cached client-side under `G`. -/
def sampleGuild : GuildCtx :=
  { id := "G"
    channels := [("C1", ⟨"C1", "general"⟩)]
    members := []
    roles := []
    emojis := []
    clientChannels := []
    clientGuilds := [("G", ⟨"G"⟩)] }

/-- Empty auxiliary caches. -/
def emptyAux : AuxCaches := ⟨[], []⟩


/-- The raw record of the bulk-delete scenario: action 73 with options
`{channel_id: "C1", count: "5"}`. -/
def bulkDeleteRaw (tid : String) : RawEntry :=
  { id := "E4"
    action_type := some 73
    target_id := some tid
    options := some { channel_id := .str "C1", count := .str "5" } }

/-- The raw record used by the C3 witness. -/
def c3Raw : RawEntry :=
  ⟨"1", some 1, none, none, some [⟨"k", .str "a", .str "b"⟩], none, none⟩

/-- The entry the C3 witness record resolves to. -/
def c3Entry : Entry :=
  { targetType := some "GUILD"
    actionType := "UPDATE"
    action := some "GUILD_UPDATE"
    reason := none
    executor := none
    changes := some [⟨"k", .str "a", .str "b"⟩]
    id := "1"
    extra := .nul
    target := .undefV }

/-- The raw record used by the C9 witness. -/
def c9Raw : RawEntry := ⟨"E9", none, none, none, none, some "G", none⟩

/-- The raw record used by the C10 witness. -/
def c10Raw : RawEntry := ⟨"EA", some 50, none, none, none, some "W1", none⟩

/-- The raw batch used by the C6 and C7 witnesses. -/
def c6Batch : RawBatch :=
  { audit_log_entries := [{ id := "E1", action_type := some 1 }] }

/-- The entry the C6 witness batch resolves to. -/
def c6Entry : Entry :=
  { targetType := some "GUILD"
    actionType := "UPDATE"
    action := some "GUILD_UPDATE"
    reason := none
    executor := none
    changes := none
    id := "E1"
    extra := .nul
    target := .undefV }

/-- The batch result the C6 witness batch resolves to. -/
def c6Logs : BatchResult :=
  { webhooks := [], integrations := [], entries := [("E1", c6Entry)] }

/-- The two entries of the C8 witness: equal ids, different reasons. -/
def c8Entry1 : Entry :=
  { targetType := some "GUILD", actionType := "UPDATE",
    action := some "GUILD_UPDATE", reason := none, executor := none,
    changes := none, id := "41771983423143937", extra := .nul, target := .nul }

/-- The second C8 witness entry. -/
def c8Entry2 : Entry :=
  { targetType := none, actionType := "ALL", action := none,
    reason := some "other", executor := none, changes := none,
    id := "41771983423143937", extra := .nul, target := .undefV }

theorem jlookup_setKV {α : Type} (m : List (String × α)) (k k' : String) (v : α) :
    jlookup (setKV m k v) k' = if k' = k then some v else jlookup m k' := by
  induction m with
  | nil =>
    by_cases h : k' = k
    · simp [setKV, jlookup, h]
    · have h' : ¬(k = k') := fun hh => h hh.symm
      simp [setKV, jlookup, h, h']
  | cons p m ih =>
    by_cases hp : p.1 = k
    · by_cases hk : k' = k
      · simp [setKV, jlookup, hp, hk]
      · have h' : ¬(k = k') := fun hh => hk hh.symm
        simp [setKV, jlookup, hp, hk, h']
    · by_cases h1 : p.1 = k'
      · have h2 : ¬(k' = k) := fun hh => hp (h1.trans hh)
        simp [setKV, jlookup, hp, h1, h2]
      · simp [setKV, jlookup, hp, h1, ih]

theorem keys_setKV {α : Type} (m : List (String × α)) (k : String) (v : α) :
    (setKV m k v).map Prod.fst =
      if (m.map Prod.fst).any (fun x => x = k) then m.map Prod.fst
      else m.map Prod.fst ++ [k] := by
  induction m with
  | nil => simp [setKV]
  | cons p m ih =>
    by_cases hp : p.1 = k
    · simp [setKV, hp]
    · have hd : (decide (p.1 = k)) = false := by simp [hp]
      simp only [setKV, hp, if_false, List.map_cons, ih, List.any_cons, hd,
        Bool.false_or]
      by_cases hm : ((List.map Prod.fst m).any fun x => decide (x = k)) = true <;>
        simp [hm]

theorem keys_foldl_setKV {α : Type} (ps : List (String × α))
    (m : List (String × α)) :
    ((ps.foldl (fun acc p => setKV acc p.1 p.2) m).map Prod.fst)
      = ps.foldl
          (fun ks p => if ks.any (fun x => x = p.1) then ks else ks ++ [p.1])
          (m.map Prod.fst) := by
  induction ps generalizing m with
  | nil => rfl
  | cons p ps ih =>
    simp only [List.foldl_cons]
    rw [ih, keys_setKV]

theorem setKV_append_of_forall_ne {α : Type} (m : List (String × α))
    (k : String) (v : α) (h : ∀ q ∈ m, q.1 ≠ k) :
    setKV m k v = m ++ [(k, v)] := by
  induction m with
  | nil => rfl
  | cons p m ih =>
    have hp : p.1 ≠ k := h p (List.mem_cons_self p m)
    simp [setKV, hp]
    exact ih (fun q hq => h q (List.mem_cons_of_mem p hq))

theorem foldl_setKV_eq_append {α : Type} (ps : List (String × α))
    (m : List (String × α)) (hd : ∀ p ∈ ps, ∀ q ∈ m, q.1 ≠ p.1)
    (hn : (ps.map Prod.fst).Nodup) :
    ps.foldl (fun acc p => setKV acc p.1 p.2) m = m ++ ps := by
  induction ps generalizing m with
  | nil => simp
  | cons p ps ih =>
    simp only [List.foldl_cons]
    rw [setKV_append_of_forall_ne m p.1 p.2
      (fun q hq => hd p (List.mem_cons_self p ps) q hq)]
    have hcons : (p.1 :: ps.map Prod.fst).Nodup := by simpa using hn
    obtain ⟨hhead, hn'⟩ := List.nodup_cons.mp hcons
    rw [ih (m ++ [(p.1, p.2)]) ?_ hn']
    · simp
    · intro x hx q hq
      rcases List.mem_append.mp hq with hq | hq
      · exact hd x (List.mem_cons_of_mem p hx) q hq
      · have : q = (p.1, p.2) := by simpa using hq
        subst this
        intro hh
        exact hhead (hh ▸ List.mem_map_of_mem Prod.fst hx)

theorem jlookup_append {α : Type} (a b : List (String × α)) (k : String) :
    jlookup (a ++ b) k =
      match jlookup a k with
      | some v => some v
      | none => jlookup b k := by
  induction a with
  | nil => rfl
  | cons p a ih =>
    by_cases hp : p.1 = k <;> simp [jlookup, hp, ih]

theorem jlookup_foldl_setKV {α : Type} (ps : List (String × α))
    (m : List (String × α)) (k : String) :
    jlookup (ps.foldl (fun acc p => setKV acc p.1 p.2) m) k =
      match jlookup ps.reverse k with
      | some v => some v
      | none => jlookup m k := by
  induction ps generalizing m with
  | nil => rfl
  | cons p ps ih =>
    simp only [List.foldl_cons, List.reverse_cons]
    rw [ih, jlookup_append]
    cases h : jlookup ps.reverse k with
    | some v => rfl
    | none =>
      rw [jlookup_setKV]
      by_cases hk : k = p.1
      · simp [jlookup, hk]
      · have hk' : ¬(p.1 = k) := fun hh => hk hh.symm
        simp [jlookup, hk, hk']

theorem except_bind_ok {ε α β : Type} (b : α) (g : α → Except ε β) :
    (Except.ok b >>= g) = g b := rfl

theorem except_bind_err {ε α β : Type} (e : ε) (g : α → Except ε β) :
    ((Except.error e : Except ε α) >>= g) = Except.error e := rfl

theorem mapM_ok_length {ε α β : Type} {l : List α} {f : α → Except ε β}
    {es : List β} (h : l.mapM f = .ok es) : es.length = l.length := by
  induction l generalizing es with
  | nil =>
    simp only [List.mapM_nil] at h
    cases h
    rfl
  | cons a l ih =>
    rw [List.mapM_cons] at h
    cases hfa : f a with
    | error e =>
      rw [hfa, except_bind_err] at h
      cases h
    | ok b =>
      rw [hfa, except_bind_ok] at h
      cases hml : l.mapM f with
      | error e =>
        rw [hml, except_bind_err] at h
        cases h
      | ok bs =>
        rw [hml, except_bind_ok] at h
        cases h
        simp [ih hml]

theorem upsertUsers_as_pairs (m : UserCache) (b : RawBatch) :
    upsertUsers m b =
      ((b.users.getD []).map (fun u => (u.id, u))).foldl
        (fun acc p => setKV acc p.1 p.2) m := by
  rw [List.foldl_map]
  rfl

theorem upsertUsers_lookup_idem (u0 : UserCache) (b : RawBatch) (k : String) :
    jlookup (upsertUsers (upsertUsers u0 b) b) k
      = jlookup (upsertUsers u0 b) k := by
  rw [upsertUsers_as_pairs (upsertUsers u0 b) b, upsertUsers_as_pairs u0 b]
  rw [jlookup_foldl_setKV, jlookup_foldl_setKV]
  cases h : jlookup ((b.users.getD []).map (fun u => (u.id, u))).reverse k <;>
    simp

theorem mkEntry_congr_users {u u' : UserCache} (aux : AuxCaches)
    (guild : GuildCtx) (d : RawEntry) (h : jlookup u = jlookup u') :
    mkEntry u aux guild d = mkEntry u' aux guild d := by
  unfold mkEntry computeTarget
  rw [h]

/-- Claim C1 (code bug evaluation): an unmapped action code (9999) does
classify as verb ALL with no target family, but entry resolution throws a
`TypeError` whenever the raw record carries a truthy `target_id` (the
generic fallback calls `toLowerCase` on the `null` target type); only the
shape without a `target_id` yields a best-effort entry. -/
theorem unmapped_code_crashes_with_target_id :
    GuildAuditLogs.actionType (some 9999) = "ALL"
    ∧ GuildAuditLogs.targetType (some 9999) = none
    ∧ mkEntry [] emptyAux sampleGuild
        ⟨"1", some 9999, none, none, none, some "T1", none⟩
      = .error (.typeError "Cannot read properties of null reading toLowerCase")
    ∧ (mkEntry [] emptyAux sampleGuild
        ⟨"1", some 9999, none, none, none, none, none⟩).isOk = true := by
  refine ⟨rfl, rfl, rfl, rfl⟩

/-- Claim C3 counterexample: a raw record whose `changes` field is the
empty list resolves to an entry whose `changes` is the empty array, not
`null` (the empty array is truthy in JavaScript). -/
theorem empty_changes_kept_as_empty_array :
    (mkEntry [] emptyAux sampleGuild
        ⟨"1", some 1, none, none, some [], none, none⟩).map Entry.changes
      = .ok (some []) := by
  rfl

/-- Claim C3 (amended): an entry's `changes` is null exactly when the raw
record carries no `changes` field; when the field is present (empty or
not) each `{key, old_value, new_value}` is mapped to `{key, old, new}`
preserving source order. -/
theorem changes_null_iff_absent (users : UserCache) (logs : AuxCaches)
    (guild : GuildCtx) (d : RawEntry) (e : Entry)
    (h : mkEntry users logs guild d = .ok e) :
    (e.changes = none ↔ d.changes = none)
    ∧ e.changes = d.changes.map (fun cs => cs.map mkChange) := by
  unfold mkEntry at h
  dsimp only at h
  cases hx : computeExtra guild d with
  | error err => rw [hx] at h; cases h
  | ok extra =>
    rw [hx] at h
    cases ht : computeTarget users logs guild d
        (GuildAuditLogs.targetType d.action_type)
        (d.changes.map (fun cs => cs.map mkChange)) with
    | error err => rw [ht] at h; cases h
    | ok tgt =>
      rw [ht] at h
      cases h
      constructor
      · cases d.changes <;> simp
      · rfl

/-- Claim C4: for action 73 (MESSAGE_BULK_DELETE) with options
`{channel_id:"C1", count:"5"}` and channel C1 cached, `extra` is the
cached channel entity with numeric count 5, and the target resolves
through the guild channel cache by `target_id` (the cached channel when
hit, the `{id: target_id}` projection when not), never a user. -/
theorem bulk_delete_extra_and_target :
    (mkEntry [] emptyAux sampleGuild (bulkDeleteRaw "C1")).map
        (fun e => (e.extra, e.target))
      = .ok (.channelCount (.ent ⟨"C1", "general"⟩) (some 5),
          .channel ⟨"C1", "general"⟩)
    ∧ (mkEntry [] emptyAux sampleGuild (bulkDeleteRaw "ZZ")).map
        (fun e => (e.extra, e.target))
      = .ok (.channelCount (.ent ⟨"C1", "general"⟩) (some 5),
          .idObj (some "ZZ")) := by
  constructor
  · rfl
  · rfl

/-- Claim C5: for action 50 (WEBHOOK_CREATE) with `target_id` "W1" absent
from the batch webhook cache and changes `[{key:"name",
new_value:"hook"}]`, the target is a freshly synthesized webhook built
from the flattened changes merged over `{id: "W1", guild_id: guild.id}`,
carrying id "W1" and name "hook". -/
theorem webhook_create_synthesizes_target :
    (mkEntry [] emptyAux sampleGuild
        { id := "E5", action_type := some 50, target_id := some "W1",
          changes := some [⟨"name", .undefV, .str "hook"⟩] }).map Entry.target
      = .ok (.webhook
          [("id", .str "W1"), ("guild_id", .str "G"), ("name", .str "hook")])
    ∧ jlookup [("id", JsVal.str "W1"), ("guild_id", JsVal.str "G"),
        ("name", JsVal.str "hook")] "id" = some (.str "W1")
    ∧ jlookup [("id", JsVal.str "W1"), ("guild_id", JsVal.str "G"),
        ("name", JsVal.str "hook")] "guild_id" = some (.str sampleGuild.id)
    ∧ jlookup [("id", JsVal.str "W1"), ("guild_id", JsVal.str "G"),
        ("name", JsVal.str "hook")] "name" = some (.str "hook") := by
  refine ⟨rfl, rfl, rfl, rfl⟩

/-- Claim C2: on every code of the fixed action table, `targetType`
buckets exactly as the spec's ascending half-open ranges prescribe; and
for every action code whatsoever, `actionType` returns CREATE, DELETE or
UPDATE exactly when the code belongs to the corresponding fixed
membership set, and ALL otherwise. -/
theorem classification_matches_table :
    (∀ c ∈ knownActionCodes,
      GuildAuditLogs.targetType (some c) = specTargetFamily c)
    ∧ ∀ a : Option Int,
        (GuildAuditLogs.actionType a = "CREATE" ↔ a ∈ GuildAuditLogs.createCodes)
        ∧ (GuildAuditLogs.actionType a = "DELETE" ↔ a ∈ GuildAuditLogs.deleteCodes)
        ∧ (GuildAuditLogs.actionType a = "UPDATE" ↔ a ∈ GuildAuditLogs.updateCodes)
        ∧ (GuildAuditLogs.actionType a = "ALL" ↔
            a ∉ GuildAuditLogs.createCodes ∧ a ∉ GuildAuditLogs.deleteCodes ∧
              a ∉ GuildAuditLogs.updateCodes) := by
  constructor
  · decide
  · intro a
    by_cases hc : a ∈ GuildAuditLogs.createCodes
    · have hcd : a ∉ GuildAuditLogs.deleteCodes := by
        have := List.all_eq_true.mp
          (show GuildAuditLogs.createCodes.all
            (fun x => !GuildAuditLogs.deleteCodes.contains x) = true by decide) a hc
        simpa using this
      have hcu : a ∉ GuildAuditLogs.updateCodes := by
        have := List.all_eq_true.mp
          (show GuildAuditLogs.createCodes.all
            (fun x => !GuildAuditLogs.updateCodes.contains x) = true by decide) a hc
        simpa using this
      simp [GuildAuditLogs.actionType, hc, hcd, hcu]
    · by_cases hd : a ∈ GuildAuditLogs.deleteCodes
      · have hdu : a ∉ GuildAuditLogs.updateCodes := by
          have := List.all_eq_true.mp
            (show GuildAuditLogs.deleteCodes.all
              (fun x => !GuildAuditLogs.updateCodes.contains x) = true by decide) a hd
          simpa using this
        simp [GuildAuditLogs.actionType, hc, hd, hdu]
      · by_cases hu : a ∈ GuildAuditLogs.updateCodes
        · simp [GuildAuditLogs.actionType, hc, hd, hu]
        · simp [GuildAuditLogs.actionType, hc, hd, hu]

/-- Claim C9: a raw record with `action_type` null classifies into the
GUILD family (the JavaScript comparison `null < 10` holds), so its
target is resolved by a client guild-cache lookup of `target_id`, never
by the unmapped-family path. -/
theorem null_action_resolves_as_guild (users : UserCache) (logs : AuxCaches)
    (guild : GuildCtx) (d : RawEntry) (h : d.action_type = none) :
    GuildAuditLogs.targetType none = some "GUILD"
    ∧ ∃ e, mkEntry users logs guild d = .ok e
        ∧ e.targetType = some "GUILD"
        ∧ e.target = (match d.target_id.bind (jlookup guild.clientGuilds) with
            | some g => Target.guild g
            | none => Target.undefV) := by
  obtain ⟨did, dat, du, dr, dc, dt, dopt⟩ := d
  simp only at h
  subst h
  exact ⟨rfl, ⟨_, rfl, rfl, rfl⟩⟩

theorem targetType_eq_webhook {a : Option Int}
    (h : GuildAuditLogs.targetType a = some "WEBHOOK") :
    ∃ c, a = some c ∧ 50 ≤ c ∧ c < 60 := by
  cases a with
  | none => exact absurd h (by decide)
  | some c =>
    unfold GuildAuditLogs.targetType GuildAuditLogs.jsLt at h
    split_ifs at h <;> simp_all

theorem targetType_eq_invite {a : Option Int}
    (h : GuildAuditLogs.targetType a = some "INVITE") :
    ∃ c, a = some c ∧ 40 ≤ c ∧ c < 50 := by
  cases a with
  | none => exact absurd h (by decide)
  | some c =>
    unfold GuildAuditLogs.targetType GuildAuditLogs.jsLt at h
    split_ifs at h <;> simp_all

theorem targetType_eq_integration {a : Option Int}
    (h : GuildAuditLogs.targetType a = some "INTEGRATION") :
    ∃ c, a = some c ∧ 80 ≤ c ∧ c < 90 := by
  cases a with
  | none => exact absurd h (by decide)
  | some c =>
    unfold GuildAuditLogs.targetType GuildAuditLogs.jsLt at h
    split_ifs at h <;> simp_all

theorem computeExtra_of_bounds (guild : GuildCtx) (d : RawEntry) (c : Int)
    (ha : d.action_type = some c) (h1 : 40 ≤ c) (h2 : c < 70 ∨ 80 ≤ c) :
    computeExtra guild d = .ok .nul := by
  unfold computeExtra
  rw [ha]
  rw [if_neg (by simp; omega), if_neg (by simp; omega), if_neg (by simp; omega),
    if_neg (by simp; omega), if_neg (by simp; omega)]
  rfl

theorem computeTarget_webhook_miss_throws (users : UserCache)
    (logs : AuxCaches) (guild : GuildCtx) (d : RawEntry)
    (hmiss : d.target_id.bind (jlookup logs.webhooks) = none) :
    computeTarget users logs guild d (some "WEBHOOK") none
      = .error (.typeError "Cannot read properties of null reading reduce") := by
  unfold computeTarget
  rw [if_neg (by simp), if_neg (by rintro ⟨h1, -⟩; simp at h1),
    if_neg (by simp), if_pos rfl, hmiss]

theorem computeTarget_invite_throws (users : UserCache)
    (logs : AuxCaches) (guild : GuildCtx) (d : RawEntry) :
    computeTarget users logs guild d (some "INVITE") none
      = .error (.typeError "Cannot read properties of null reading reduce") := by
  unfold computeTarget
  rw [if_neg (by simp), if_neg (by rintro ⟨h1, -⟩; simp at h1),
    if_neg (by simp), if_neg (by simp), if_pos rfl]

theorem computeTarget_integration_miss_throws (users : UserCache)
    (logs : AuxCaches) (guild : GuildCtx) (d : RawEntry)
    (hmiss : d.target_id.bind (jlookup logs.integrations) = none) :
    computeTarget users logs guild d (some "INTEGRATION") none
      = .error (.typeError "Cannot read properties of null reading reduce") := by
  unfold computeTarget
  rw [if_neg (by simp), if_neg (by rintro ⟨h1, -⟩; simp at h1),
    if_neg (by simp), if_neg (by simp), if_neg (by simp), if_neg (by simp),
    if_pos rfl, hmiss]

/-- Claim C10: when the target family is WEBHOOK, INVITE or INTEGRATION,
the target misses the corresponding batch cache (an invite is always
synthesized), and the raw `changes` field is absent, target resolution
throws a `TypeError` (the `null` change list is dereferenced by the
flattening `reduce`) instead of synthesizing a stand-in from the id
alone. -/
theorem synth_target_requires_changes (users : UserCache) (logs : AuxCaches)
    (guild : GuildCtx) (d : RawEntry) (hch : d.changes = none)
    (hfam :
      (GuildAuditLogs.targetType d.action_type = some "WEBHOOK"
        ∧ d.target_id.bind (jlookup logs.webhooks) = none)
      ∨ GuildAuditLogs.targetType d.action_type = some "INVITE"
      ∨ (GuildAuditLogs.targetType d.action_type = some "INTEGRATION"
        ∧ d.target_id.bind (jlookup logs.integrations) = none)) :
    mkEntry users logs guild d
      = .error (.typeError "Cannot read properties of null reading reduce") := by
  unfold mkEntry
  dsimp only
  rw [hch]
  simp only [Option.map_none']
  rcases hfam with ⟨htt, hmiss⟩ | htt | ⟨htt, hmiss⟩
  · obtain ⟨c, hc, h1, h2⟩ := targetType_eq_webhook htt
    rw [computeExtra_of_bounds guild d c hc (by omega) (by omega), htt,
      computeTarget_webhook_miss_throws users logs guild d hmiss]
  · obtain ⟨c, hc, h1, h2⟩ := targetType_eq_invite htt
    rw [computeExtra_of_bounds guild d c hc (by omega) (by omega), htt,
      computeTarget_invite_throws users logs guild d]
  · obtain ⟨c, hc, h1, h2⟩ := targetType_eq_integration htt
    rw [computeExtra_of_bounds guild d c hc (by omega) (by omega), htt,
      computeTarget_integration_miss_throws users logs guild d hmiss]

/-- Claim C6: on a successful batch resolution, one entry is constructed
per `audit_log_entries` element in source order; the owned collection is
keyed by entry id with keys iterating at their first-occurrence position
(hence exactly the source order whenever ids are distinct, in which case
the collection is literally the id-indexed source sequence), and a later
entry with a colliding id overwrites the earlier one (lookups see the
last write). -/
theorem entry_collection_order (users0 : UserCache) (guild : GuildCtx)
    (b : RawBatch) (logs : BatchResult)
    (h : (resolveBatch users0 guild b).2 = .ok logs) :
    ∃ es : List Entry,
      b.audit_log_entries.mapM
          (fun d => mkEntry (upsertUsers users0 b) (auxOf b) guild d) = .ok es
      ∧ es.length = b.audit_log_entries.length
      ∧ logs.entries.map Prod.fst
          = firstDedup (b.audit_log_entries.map RawEntry.id)
      ∧ ((b.audit_log_entries.map RawEntry.id).Nodup →
          logs.entries = (b.audit_log_entries.map RawEntry.id).zip es)
      ∧ (∀ k, jlookup logs.entries k
          = jlookup ((b.audit_log_entries.map RawEntry.id).zip es).reverse k) := by
  unfold resolveBatch at h
  dsimp only at h
  cases hm : b.audit_log_entries.mapM
      (fun d => mkEntry (upsertUsers users0 b) (auxOf b) guild d) with
  | error e => rw [hm] at h; cases h
  | ok es =>
    rw [hm] at h
    cases h
    have hlen : es.length = b.audit_log_entries.length := mapM_ok_length hm
    have hlen' : (b.audit_log_entries.map RawEntry.id).length ≤ es.length := by
      simp [hlen]
    refine ⟨es, rfl, hlen, ?_, ?_, ?_⟩
    · unfold entriesMapOf firstDedup
      rw [keys_foldl_setKV]
      simp only [List.map_nil]
      have hfold := List.foldl_map (Prod.fst : String × Entry → String)
        (fun ks k => if ks.any (fun x => x = k) then ks else ks ++ [k])
        ((List.map RawEntry.id b.audit_log_entries).zip es) ([] : List String)
      rw [← hfold, List.map_fst_zip _ _ hlen']
    · intro hnd
      unfold entriesMapOf
      rw [foldl_setKV_eq_append _ [] (by intro p hp q hq; cases hq) ?_]
      · simp
      · rw [List.map_fst_zip _ _ hlen']
        exact hnd
    · intro k
      unfold entriesMapOf
      rw [jlookup_foldl_setKV]
      cases jlookup ((b.audit_log_entries.map RawEntry.id).zip es).reverse k <;>
        rfl

/-- Claim C7: resolving the same raw batch twice against the same guild
context — the second run starting from the user cache the first run
produced — yields field-by-field identical batch results: the only state
the first run mutates is the client user cache, and the upsert is
idempotent with respect to lookups. -/
theorem resolve_batch_idempotent (users0 : UserCache) (guild : GuildCtx)
    (b : RawBatch) (l1 l2 : BatchResult)
    (h1 : (resolveBatch users0 guild b).2 = .ok l1)
    (h2 : (resolveBatch ((resolveBatch users0 guild b).1) guild b).2 = .ok l2) :
    l1 = l2 := by
  have hfst : (resolveBatch users0 guild b).1 = upsertUsers users0 b := rfl
  rw [hfst] at h2
  have hf : jlookup (upsertUsers (upsertUsers users0 b) b)
      = jlookup (upsertUsers users0 b) :=
    funext (upsertUsers_lookup_idem users0 b)
  have hmk : mkEntry (upsertUsers (upsertUsers users0 b) b) (auxOf b) guild
      = mkEntry (upsertUsers users0 b) (auxOf b) guild :=
    funext (fun d => mkEntry_congr_users (auxOf b) guild d hf)
  unfold resolveBatch at h1 h2
  dsimp only at h1 h2
  rw [hmk] at h2
  cases hm : b.audit_log_entries.mapM
      (fun d => mkEntry (upsertUsers users0 b) (auxOf b) guild d) with
  | error e =>
    rw [hm] at h1
    cases h1
  | ok es =>
    rw [hm] at h1 h2
    cases h1
    cases h2
    rfl

/-- Claim C8: `createdTimestamp` is a pure function of the entry id alone
— entries with equal ids yield the same millisecond value, which equals
the Snowflake timestamp deconstruction of the id — and `createdAt` wraps
exactly that value into a date. -/
theorem created_timestamp_pure (e1 e2 : Entry) (h : e1.id = e2.id) :
    e1.createdTimestamp = e2.createdTimestamp
    ∧ e1.createdTimestamp = snowflakeTimestamp e1.id
    ∧ e1.createdAt = DateVal.mk (snowflakeTimestamp e1.id) := by
  refine ⟨?_, rfl, rfl⟩
  unfold Entry.createdTimestamp
  rw [h]

theorem changes_null_iff_absent_witness :
    (c3Entry.changes = none ↔ c3Raw.changes = none)
    ∧ c3Entry.changes = c3Raw.changes.map (fun cs => cs.map mkChange) :=
  changes_null_iff_absent [] emptyAux sampleGuild c3Raw c3Entry rfl

theorem classification_matches_table_witness :
    GuildAuditLogs.targetType (some 73) = specTargetFamily 73
    ∧ (GuildAuditLogs.actionType (some 73) = "DELETE"
        ↔ (some 73 : Option Int) ∈ GuildAuditLogs.deleteCodes) :=
  ⟨classification_matches_table.1 73 (by decide),
    (classification_matches_table.2 (some 73)).2.1⟩

theorem null_action_resolves_as_guild_witness :
    GuildAuditLogs.targetType none = some "GUILD"
    ∧ ∃ e, mkEntry [] emptyAux sampleGuild c9Raw = .ok e
        ∧ e.targetType = some "GUILD"
        ∧ e.target = (match c9Raw.target_id.bind (jlookup sampleGuild.clientGuilds) with
            | some g => Target.guild g
            | none => Target.undefV) :=
  null_action_resolves_as_guild [] emptyAux sampleGuild c9Raw rfl

theorem synth_target_requires_changes_witness :
    mkEntry [] emptyAux sampleGuild c10Raw
      = .error (.typeError "Cannot read properties of null reading reduce") :=
  synth_target_requires_changes [] emptyAux sampleGuild c10Raw rfl
    (Or.inl ⟨by decide, rfl⟩)

theorem entry_collection_order_witness :
    ∃ es : List Entry,
      c6Batch.audit_log_entries.mapM
          (fun d => mkEntry (upsertUsers [] c6Batch) (auxOf c6Batch) sampleGuild d)
        = .ok es
      ∧ es.length = c6Batch.audit_log_entries.length
      ∧ c6Logs.entries.map Prod.fst
          = firstDedup (c6Batch.audit_log_entries.map RawEntry.id)
      ∧ ((c6Batch.audit_log_entries.map RawEntry.id).Nodup →
          c6Logs.entries = (c6Batch.audit_log_entries.map RawEntry.id).zip es)
      ∧ (∀ k, jlookup c6Logs.entries k
          = jlookup ((c6Batch.audit_log_entries.map RawEntry.id).zip es).reverse k) :=
  entry_collection_order [] sampleGuild c6Batch c6Logs rfl

theorem resolve_batch_idempotent_witness : c6Logs = c6Logs :=
  resolve_batch_idempotent [] sampleGuild c6Batch c6Logs c6Logs rfl rfl

theorem created_timestamp_pure_witness :
    c8Entry1.createdTimestamp = c8Entry2.createdTimestamp
    ∧ c8Entry1.createdTimestamp = snowflakeTimestamp c8Entry1.id
    ∧ c8Entry1.createdAt = DateVal.mk (snowflakeTimestamp c8Entry1.id) :=
  created_timestamp_pure c8Entry1 c8Entry2 rfl
